import Mathlib

/-!
# Verification of the spatial-audio hotspot engine

Shallow embedding of the core of the `csanyi-projekt` repository
(`src/unnamed/part_001`): the Geometry Engine (`polygonsOverlap` and its
ray-casting / segment-intersection helpers), the Mix Engine
(`useAudioEngine`: `play` / `stop` / `stopAll` / `updateSettings` over a
map of named voices), and the Hotspot Controller handlers
(`handleStopDrawing`, `handleImageUpload`, `playHotspot`,
`handleTouchMove`).

Modelling conventions:
* JavaScript `number` coordinates and durations are modelled as `ℚ`;
  all inputs appearing in the claims are exact in double precision.
* The JS `Map` keyed by voice id is modelled as an association list
  (`VoiceMap`) with `Map.set` / `Map.get` / `Map.delete` semantics.
* Side effects on Web Audio nodes (gain ramps, pan changes, timer
  scheduling) are modelled as an emitted list of `AudioAction`s, in the
  order the source issues them; the synchronous state change of each
  call is the returned `VoiceMap`.
* Opaque browser handles (`File`, `AudioContext`, DOM nodes) are not
  modelled; only the data the handlers read or write is.
-/

namespace SoundMap

/-! ## Geometry Engine (source lines 1193–1241) -/

structure Point where
  x : ℚ
  y : ℚ
deriving DecidableEq, Repr, Inhabited

/-- Ray-casting point-in-polygon test, embedding `isPointInPolygon`
(source lines 1201–1211): the loop runs `i` over all indices with `j`
the previous index (starting at `length - 1`), toggling `inside` when
the edge `(polygon[j], polygon[i])` crosses the horizontal ray from
`point`.  ℚ division by zero yields 0, but exactly as in the source the
divisor is only relevant when the first conjunct guards it. -/
def isPointInPolygon (point : Point) (polygon : List Point) : Bool :=
  (List.range polygon.length).foldl
    (fun inside i =>
      let pi := polygon.getD i default
      let pj := polygon.getD ((i + polygon.length - 1) % polygon.length) default
      if (decide (pi.y > point.y) != decide (pj.y > point.y))
          && decide (point.x < (pj.x - pi.x) * (point.y - pi.y) / (pj.y - pi.y) + pi.x)
      then !inside else inside)
    false

/-- Counter-clockwise orientation predicate `ccw` (source line 1225). -/
def ccw (a b c : Point) : Bool :=
  decide ((c.y - a.y) * (b.x - a.x) > (b.y - a.y) * (c.x - a.x))

/-- Proper segment intersection test `doSegmentsIntersect`
(source lines 1224–1228). -/
def doSegmentsIntersect (p1 p2 p3 p4 : Point) : Bool :=
  (ccw p1 p3 p4 != ccw p2 p3 p4) && (ccw p1 p2 p3 != ccw p1 p2 p4)

/-- The directed edge list of a polygon: `(poly[i], poly[(i+1) % len])`
for each index `i`, exactly as traversed by the edge-intersection loops
of `polygonsOverlap` (source lines 1230–1238). -/
def edgesOf (poly : List Point) : List (Point × Point) :=
  (List.range poly.length).map
    (fun i => (poly.getD i default, poly.getD ((i + 1) % poly.length) default))

/-- The double edge loop of `polygonsOverlap` (source lines 1230–1238). -/
def anyEdgesIntersect (poly1 poly2 : List Point) : Bool :=
  (edgesOf poly1).any (fun e1 =>
    (edgesOf poly2).any (fun e2 => doSegmentsIntersect e1.1 e1.2 e2.1 e2.2))

/-- `polygonsOverlap` (source lines 1199–1241): any vertex of `poly1`
inside `poly2`, or any vertex of `poly2` inside `poly1`, or any pair of
edges properly intersecting.  The source's sequential early returns are
the short-circuit disjunction. -/
def polygonsOverlap (poly1 poly2 : List Point) : Bool :=
  poly1.any (fun point => isPointInPolygon point poly2)
    || poly2.any (fun point => isPointInPolygon point poly1)
    || anyEdgesIntersect poly1 poly2

/-! ## Mix Engine (source lines 163–298, `useAudioEngine`) -/

/-- Audio settings as consumed by the engine.  The TS type declares
`fadeIn` / `fadeOut` as `number`, but the engine defends against absent
values with `?? 0.3`, so they are modelled as `Option ℚ`. -/
structure AudioSettings where
  volume : ℚ
  pan : ℚ
  loop : Bool
  fadeIn : Option ℚ
  fadeOut : Option ℚ
deriving DecidableEq, Repr

/-- The per-voice record stored in `sourcesRef` (source line 165): the
clip url attached to the `HTMLAudioElement`, the pan and loop values
held by the panner node and audio element, the remembered
`fadeOutDuration`, and whether a pending teardown timer exists
(`fadeOutTimer` handle present). -/
structure Voice where
  url : String
  pan : ℚ
  loop : Bool
  fadeOutDuration : ℚ
  fadeOutTimer : Bool
deriving DecidableEq, Repr

/-- The `sourcesRef` map: association list keyed by voice id, with JS
`Map` semantics (`mapSet` replaces in place, `mapGet` finds the first
binding). -/
abbrev VoiceMap := List (String × Voice)

def mapGet (m : VoiceMap) (k : String) : Option Voice :=
  (m.find? (fun e => e.1 == k)).map (fun e => e.2)

def mapSet (m : VoiceMap) (k : String) (v : Voice) : VoiceMap :=
  if m.any (fun e => e.1 == k) then
    m.map (fun e => if e.1 == k then (k, v) else e)
  else
    m ++ [(k, v)]

/-- Observable side effects on the audio graph and timer queue, in the
order the source issues them. Durations are in seconds for ramps and
milliseconds for timers, as in the source. -/
inductive AudioAction where
  | startPlayback (id : String) (url : String)
  | setGainNow (id : String) (value : ℚ)
  | holdGainAtCurrent (id : String)
  | rampGain (id : String) (target : ℚ) (seconds : ℚ)
  | cancelRamps (id : String)
  | setPan (id : String) (value : ℚ)
  | setLoop (id : String) (value : Bool)
  | scheduleTeardown (id : String) (delayMs : ℚ)
  | cancelTeardown (id : String)
deriving DecidableEq, Repr

/-- The voice id an action targets. -/
def actionVoiceId : AudioAction → String
  | .startPlayback id _ => id
  | .setGainNow id _ => id
  | .holdGainAtCurrent id => id
  | .rampGain id _ _ => id
  | .cancelRamps id => id
  | .setPan id _ => id
  | .setLoop id _ => id
  | .scheduleTeardown id _ => id
  | .cancelTeardown id => id

/-- `play` (source lines 187–230). If a voice exists its remembered
fade-out duration is updated first; then: pending teardown timer ⇒
cancel it, cancel in-flight ramps and ramp back up to `volume` over
`fadeIn ?? 0.3` seconds; no pending timer ⇒ return with no audio
actions. If no voice exists, build the chain, set pan, ramp gain from 0
to `volume` over `fadeIn ?? 0.3`, start playback and store the voice. -/
def play (st : VoiceMap) (id url : String) (s : AudioSettings) :
    VoiceMap × List AudioAction :=
  let fadeDuration := s.fadeIn.getD (3/10)
  match mapGet st id with
  | some existing =>
      let existing1 : Voice := { existing with fadeOutDuration := s.fadeOut.getD (3/10) }
      if existing.fadeOutTimer then
        (mapSet st id { existing1 with fadeOutTimer := false },
         [.cancelTeardown id, .cancelRamps id, .rampGain id s.volume fadeDuration])
      else
        (mapSet st id existing1, [])
  | none =>
      let v : Voice :=
        { url := url, pan := s.pan, loop := s.loop,
          fadeOutDuration := s.fadeOut.getD (3/10), fadeOutTimer := false }
      (mapSet st id v,
       [.setPan id s.pan, .setGainNow id 0, .rampGain id s.volume fadeDuration,
        .startPlayback id url])

/-- `stop` (source lines 232–255): only acts when the voice exists and
has no pending teardown timer; `node.fadeOutDuration || 0.3` maps a
zero (JS-falsy) stored duration to 0.3.  It holds the current gain,
ramps to zero over the stored duration, and schedules teardown after
`duration * 1000 + 100` ms, storing the timer handle. -/
def stop (st : VoiceMap) (id : String) : VoiceMap × List AudioAction :=
  match mapGet st id with
  | some node =>
      if node.fadeOutTimer then (st, [])
      else
        let duration := if node.fadeOutDuration == 0 then (3/10 : ℚ) else node.fadeOutDuration
        (mapSet st id { node with fadeOutTimer := true },
         [.cancelRamps id, .holdGainAtCurrent id, .rampGain id 0 duration,
          .scheduleTeardown id (duration * 1000 + 100)])
  | none => (st, [])

/-- `stopAll` (source lines 257–278): iterates over every entry,
re-reads the node for its id, and — only when no teardown timer is
pending — ramps to zero over the fixed 0.1 s and schedules teardown
after 150 ms.  The timer handle is not stored, so the map is unchanged
synchronously; voices already fading are skipped entirely. -/
def stopAll (st : VoiceMap) : VoiceMap × List AudioAction :=
  (st,
   st.flatMap (fun e =>
     match mapGet st e.1 with
     | some node =>
         if node.fadeOutTimer then []
         else
           [.cancelRamps e.1, .holdGainAtCurrent e.1, .rampGain e.1 0 (1/10),
            .scheduleTeardown e.1 150]
     | none => []))

/-- `updateSettings` (source lines 280–295): when the voice exists its
remembered fade-out duration is always updated; the gain ramp (to the
new volume over the fixed 0.1 s), pan and loop updates only happen when
no teardown timer is pending. -/
def updateSettings (st : VoiceMap) (id : String) (s : AudioSettings) :
    VoiceMap × List AudioAction :=
  match mapGet st id with
  | some node =>
      let node1 : Voice := { node with fadeOutDuration := s.fadeOut.getD (3/10) }
      if node.fadeOutTimer then
        (mapSet st id node1, [])
      else
        (mapSet st id { node1 with pan := s.pan, loop := s.loop },
         [.cancelRamps id, .rampGain id s.volume (1/10), .setPan id s.pan,
          .setLoop id s.loop])
  | none => (st, [])

/-- A control-plane call to the Mix Engine. -/
inductive MixCall where
  | play (id url : String) (s : AudioSettings)
  | stop (id : String)
  | stopAll
  | updateSettings (id : String) (s : AudioSettings)
deriving DecidableEq, Repr

/-- The synchronous state transition of one engine call. -/
def stepCall (st : VoiceMap) : MixCall → VoiceMap
  | .play id url s => (play st id url s).1
  | .stop id => (stop st id).1
  | .stopAll => (stopAll st).1
  | .updateSettings id s => (updateSettings st id s).1

/-- Running a sequence of engine calls from a state. -/
def runCalls (st : VoiceMap) (calls : List MixCall) : VoiceMap :=
  calls.foldl stepCall st

/-- Number of voice-map entries for a given id. -/
def countKey (m : VoiceMap) (k : String) : Nat :=
  m.countP (fun e => e.1 == k)

/-! ## Hotspot Controller (source lines 1302–1381 and 1540–1617)

Opaque browser `File` handles are not modelled; the `audioUrl` /
`imageUrl` object-URL strings the handlers read and write are. -/

/-- A committed hotspot (TS type at source lines 34–43, minus the
opaque `File` handle). -/
structure Hotspot where
  id : String
  points : List Point
  audioUrl : Option String
  audioPath : Option String
  name : String
  color : String
  settings : AudioSettings
deriving DecidableEq, Repr

/-- A global ambient channel (TS type at source lines 45–52, minus the
opaque `File` handle). -/
structure GlobalChannel where
  id : String
  name : String
  audioUrl : Option String
  audioPath : Option String
  settings : AudioSettings
deriving DecidableEq, Repr

/-- The project document (TS type at source lines 54–67, minus the
opaque `File` handles). -/
structure Project where
  id : String
  title : String
  imageUrl : Option String
  imagePath : Option String
  hotspots : List Hotspot
  globalChannels : List GlobalChannel
  introAudioUrl : Option String
  introAudioPath : Option String
  introAudioLoop : Bool
  createdAt : Int
deriving DecidableEq, Repr

/-- The error taxonomy of the spec (§7).  The drawing handler in the
source can only ever surface the overlap-conflict `alert`; the
`degeneratePolygon` constructor exists so the spec's claimed signal can
be stated about the code's observable result. -/
inductive DrawError where
  | degeneratePolygon
  | overlapConflict
deriving DecidableEq, Repr

/-- Observable outcome of ending a draw gesture: the resulting hotspot
list, the surfaced error signal (the source's `alert`), and the reset
drawing state. -/
structure DrawResult where
  hotspots : List Hotspot
  error : Option DrawError
  isDrawing : Bool
  currentPoints : List Point
deriving DecidableEq, Repr

/-- `handleStopDrawing` (source lines 1349–1381).  Nothing happens when
not drawing.  A candidate with more than 5 points is tested with
`polygonsOverlap` against every committed hotspot: on overlap the
`alert` fires and the candidate is discarded; otherwise a hotspot with
default settings `{volume 1, pan 0, loop false, fadeIn 0.5, fadeOut
0.5}` is appended.  A candidate with 5 or fewer points falls through:
drawing state is reset and nothing else happens.  The nondeterministic
`crypto.randomUUID()` id and random color are passed in as
parameters. -/
def handleStopDrawing (isDrawing : Bool) (currentPoints : List Point)
    (hotspots : List Hotspot) (newId newColor : String) : DrawResult :=
  if isDrawing = false then
    { hotspots := hotspots, error := none, isDrawing := false,
      currentPoints := currentPoints }
  else if currentPoints.length > 5 then
    if hotspots.any (fun existingHotspot => polygonsOverlap currentPoints existingHotspot.points) then
      { hotspots := hotspots, error := some .overlapConflict, isDrawing := false,
        currentPoints := [] }
    else
      { hotspots := hotspots ++
          [{ id := newId, points := currentPoints, audioUrl := none,
             audioPath := none,
             name := "Zone " ++ toString (hotspots.length + 1), color := newColor,
             settings := { volume := 1, pan := 0, loop := false,
                           fadeIn := some (1/2), fadeOut := some (1/2) } }],
        error := none, isDrawing := false, currentPoints := [] }
  else
    { hotspots := hotspots, error := none, isDrawing := false,
      currentPoints := [] }

/-- The optimistic project update of `handleImageUpload` (source lines
1302–1321): `prev => ({...prev, imageFile: file, imageUrl: url,
hotspots: [], imagePath: path})` — the new object URL and storage path
replace the image fields and the hotspot list is reset to empty; every
other field is spread through unchanged. -/
def handleImageUpload (prev : Project) (url path : String) : Project :=
  { prev with imageUrl := some url, hotspots := [], imagePath := some path }

/-- `playHotspot` (source lines 1578–1587): no clip or already the
sounding hotspot ⇒ nothing; otherwise stop the old id (when one is
sounding), play the new one, and remember it as the sounding id.
Returns the new `playingId` and the engine calls in issue order. -/
def playHotspot (playingId : Option String) (h : Hotspot) :
    Option String × List MixCall :=
  match h.audioUrl with
  | none => (playingId, [])
  | some url =>
      if playingId == some h.id then (playingId, [])
      else
        (some h.id,
         (match playingId with
          | some old => [MixCall.stop old]
          | none => []) ++ [MixCall.play h.id url h.settings])

/-- `handleTouchMove` (source lines 1603–1617).  `touched` is the
`data-id` of the polygon element under the touch (`none` when the
element under the touch is not a polygon).  A touched polygon with an
id different from the sounding one is looked up and handed to
`playHotspot`; touching outside all polygons stops the sounding voice
and clears the sounding id. -/
def handleTouchMove (touched : Option String) (playingId : Option String)
    (hotspots : List Hotspot) : Option String × List MixCall :=
  match touched with
  | some id =>
      if some id == playingId then (playingId, [])
      else
        match hotspots.find? (fun h => h.id == id) with
        | some h => playHotspot playingId h
        | none => (playingId, [])
  | none =>
      match playingId with
      | some p => (none, [MixCall.stop p])
      | none => (playingId, [])

/-! ## Concrete inputs used by witnesses and counterexamples -/

/-- A thin horizontal rectangle, crossing `rectV` in an X/plus shape. -/
def rectH : List Point := [⟨0, 4⟩, ⟨10, 4⟩, ⟨10, 6⟩, ⟨0, 6⟩]

/-- A thin vertical rectangle, crossing `rectH` in an X/plus shape. -/
def rectV : List Point := [⟨4, 0⟩, ⟨6, 0⟩, ⟨6, 10⟩, ⟨4, 10⟩]

/-! ## Geometry lemmas -/

/-- The counter-clockwise predicate is invariant under cyclic rotation
of its three arguments: its two sides differ by the same signed-area
cross product. -/
lemma ccw_rotate (a b c : Point) : ccw a b c = ccw b c a := by
  have key : (c.y - a.y) * (b.x - a.x) - (b.y - a.y) * (c.x - a.x)
      = (a.y - b.y) * (c.x - b.x) - (c.y - b.y) * (a.x - b.x) := by ring
  simp only [ccw, decide_eq_decide]
  constructor <;> intro h <;> nlinarith [key]

/-- Swapping the two segments leaves the proper-intersection test
unchanged. -/
lemma doSegmentsIntersect_comm (p1 p2 p3 p4 : Point) :
    doSegmentsIntersect p1 p2 p3 p4 = doSegmentsIntersect p3 p4 p1 p2 := by
  simp only [doSegmentsIntersect]
  rw [ccw_rotate p3 p1 p2, ccw_rotate p4 p1 p2,
    ccw_rotate p3 p4 p1, ccw_rotate p4 p1 p3,
    ccw_rotate p3 p4 p2, ccw_rotate p4 p2 p3,
    Bool.and_comm]

/-- The double edge-intersection loop is symmetric in the two
polygons. -/
lemma anyEdgesIntersect_comm (a b : List Point) :
    anyEdgesIntersect a b = anyEdgesIntersect b a := by
  rw [Bool.eq_iff_iff]
  simp only [anyEdgesIntersect, List.any_eq_true]
  constructor
  · rintro ⟨e1, he1, e2, he2, h⟩
    refine ⟨e2, he2, e1, he1, ?_⟩
    rw [doSegmentsIntersect_comm]
    exact h
  · rintro ⟨e2, he2, e1, he1, h⟩
    refine ⟨e1, he1, e2, he2, ?_⟩
    rw [doSegmentsIntersect_comm]
    exact h

/-! ## Claim theorems: Geometry Engine -/

/-- C5: for all polygons `a` and `b`, `polygonsOverlap a b` is true
exactly when some vertex of `a` lies inside `b`, or some vertex of `b`
lies inside `a`, or some edge of `a` properly intersects some edge of
`b` under the counter-clockwise cross-product orientation predicate;
and on the X-crossing pair of thin rectangles `rectH` / `rectV` — where
no vertex of either polygon lies inside the other — it returns true. -/
theorem polygonsOverlap_three_part_test :
    (∀ a b : List Point,
        polygonsOverlap a b = true ↔
          ((∃ p ∈ a, isPointInPolygon p b = true)
            ∨ (∃ p ∈ b, isPointInPolygon p a = true)
            ∨ (∃ e1 ∈ edgesOf a, ∃ e2 ∈ edgesOf b,
                doSegmentsIntersect e1.1 e1.2 e2.1 e2.2 = true)))
      ∧ polygonsOverlap rectH rectV = true
      ∧ (∀ p ∈ rectH, isPointInPolygon p rectV = false)
      ∧ (∀ p ∈ rectV, isPointInPolygon p rectH = false) := by
  refine ⟨?_, ?_, ?_, ?_⟩
  · intro a b
    simp only [polygonsOverlap, anyEdgesIntersect, Bool.or_eq_true, List.any_eq_true,
      Prod.exists]
    exact or_assoc
  · norm_num [polygonsOverlap, anyEdgesIntersect, isPointInPolygon, edgesOf,
      ccw, doSegmentsIntersect, rectH, rectV, List.range_succ]
  · intro p hp
    fin_cases hp <;>
      norm_num [isPointInPolygon, rectH, rectV, List.range_succ]
  · intro p hp
    fin_cases hp <;>
      norm_num [isPointInPolygon, rectH, rectV, List.range_succ]

/-- C6: the polygon overlap test is symmetric in its two arguments. -/
theorem polygonsOverlap_symm (a b : List Point) :
    polygonsOverlap a b = polygonsOverlap b a := by
  simp only [polygonsOverlap]
  rw [anyEdgesIntersect_comm]
  rw [Bool.or_comm (a.any fun point => isPointInPolygon point b)]

/-! ## Voice-map lemmas -/

/-- Replacing the bindings of one key in place does not change any
key's multiplicity. -/
lemma countKey_replaceMap (m : VoiceMap) (k : String) (v : Voice) (j : String) :
    countKey (m.map (fun e => if e.1 == k then (k, v) else e)) j = countKey m j := by
  induction m with
  | nil => rfl
  | cons e m ih =>
      have hpe : ((if e.1 == k then (k, v) else e).1 == j) = (e.1 == j) := by
        by_cases he : e.1 = k
        · simp [he]
        · simp [he]
      simp only [countKey, List.map_cons, List.countP_cons] at ih ⊢
      rw [ih, hpe]

/-- A key that no entry carries has multiplicity zero. -/
lemma countKey_eq_zero_of_any_false (m : VoiceMap) (k : String)
    (h : m.any (fun e => e.1 == k) = false) : countKey m k = 0 := by
  induction m with
  | nil => rfl
  | cons e m ih =>
      simp only [List.any_cons, Bool.or_eq_false_iff] at h
      simp only [countKey, List.countP_cons] at ih ⊢
      simp [h.1, ih h.2]

/-- `mapSet` preserves the at-most-one-binding-per-key bound. -/
lemma countKey_mapSet_le (m : VoiceMap) (k : String) (v : Voice)
    (h : ∀ j, countKey m j ≤ 1) : ∀ j, countKey (mapSet m k v) j ≤ 1 := by
  intro j
  unfold mapSet
  split
  · rw [countKey_replaceMap]
    exact h j
  · rename_i hany
    rw [countKey, List.countP_append]
    by_cases hj : j = k
    · subst hj
      have h0 : countKey m j = 0 :=
        countKey_eq_zero_of_any_false m j (Bool.not_eq_true _ ▸ hany)
      simp only [countKey] at h0
      simp [h0, List.countP_cons]
    · have h1 : List.countP (fun e => e.1 == j) [(k, v)] = 0 := by
        simp [List.countP_cons, Ne.symm hj]
      rw [h1]
      simpa [countKey] using h j

/-- `find?` on the in-place-replaced list returns the replacement
exactly when the original list had a binding. -/
lemma find?_replaceMap (m : VoiceMap) (k : String) (v : Voice) :
    (m.map (fun e => if e.1 == k then (k, v) else e)).find? (fun e => e.1 == k)
      = (m.find? (fun e => e.1 == k)).map (fun _ => (k, v)) := by
  induction m with
  | nil => rfl
  | cons e m ih =>
      by_cases he : e.1 = k
      · rw [List.map_cons, show (if e.1 == k then (k, v) else e) = (k, v) from by simp [he],
          List.find?_cons_of_pos _ (by simp), List.find?_cons_of_pos _ (by simp [he])]
        rfl
      · rw [List.map_cons, show (if e.1 == k then (k, v) else e) = e from by simp [he],
          List.find?_cons_of_neg _ (by simp [he]), List.find?_cons_of_neg _ (by simp [he])]
        exact ih

/-- After `mapSet m k v`, looking up `k` yields `v`. -/
lemma mapGet_mapSet_self (m : VoiceMap) (k : String) (v : Voice) :
    mapGet (mapSet m k v) k = some v := by
  unfold mapSet mapGet
  split
  · rename_i hany
    rw [find?_replaceMap]
    rcases hx : m.find? (fun e => e.1 == k) with _ | e
    · exfalso
      rw [List.find?_eq_none] at hx
      obtain ⟨x, hmem, hpx⟩ := List.any_eq_true.mp hany
      exact hx x hmem hpx
    · rw [hx]
      rfl
  · rename_i hany
    have hnone : m.find? (fun e => e.1 == k) = none := by
      rw [List.find?_eq_none]
      intro x hx hpx
      exact hany (List.any_eq_true.mpr ⟨x, hx, hpx⟩)
    rw [List.find?_append, hnone]
    simp

/-- A successful lookup witnesses at least one binding for the key. -/
lemma countKey_pos_of_mapGet (m : VoiceMap) (k : String) (v : Voice)
    (h : mapGet m k = some v) : 1 ≤ countKey m k := by
  unfold mapGet at h
  rcases hx : m.find? (fun e => e.1 == k) with _ | e
  · rw [hx] at h
    simp at h
  · have hmem := List.mem_of_find?_eq_some hx
    have hp := List.find?_some hx
    exact Nat.succ_le_of_lt (List.countP_pos_iff.mpr ⟨e, hmem, hp⟩)

/-- A successful lookup means some entry carries the key. -/
lemma any_of_mapGet (m : VoiceMap) (k : String) (v : Voice)
    (h : mapGet m k = some v) : m.any (fun e => e.1 == k) = true := by
  unfold mapGet at h
  rcases hx : m.find? (fun e => e.1 == k) with _ | e
  · rw [hx] at h
    simp at h
  · exact List.any_eq_true.mpr
      ⟨e, List.mem_of_find?_eq_some hx, by simpa using List.find?_some hx⟩

/-- A successful lookup yields an entry of the list with that key. -/
lemma exists_mem_of_mapGet (m : VoiceMap) (k : String) (v : Voice)
    (h : mapGet m k = some v) : ∃ e ∈ m, e.1 = k := by
  unfold mapGet at h
  rcases hx : m.find? (fun e => e.1 == k) with _ | e
  · rw [hx] at h
    simp at h
  · have hp : (e.1 == k) = true := by simpa using List.find?_some hx
    exact ⟨e, List.mem_of_find?_eq_some hx, eq_of_beq hp⟩

/-- When the key is already bound, `mapSet` leaves every key's
multiplicity unchanged. -/
lemma countKey_mapSet_present (m : VoiceMap) (k : String) (v : Voice) (j : String)
    (h : m.any (fun e => e.1 == k) = true) :
    countKey (mapSet m k v) j = countKey m j := by
  unfold mapSet
  rw [if_pos h]
  exact countKey_replaceMap m k v j

/-- Every synchronous Mix Engine call preserves the
at-most-one-binding-per-id bound. -/
lemma countKey_stepCall_le (st : VoiceMap) (c : MixCall)
    (h : ∀ j, countKey st j ≤ 1) : ∀ j, countKey (stepCall st c) j ≤ 1 := by
  intro j
  cases c with
  | play id url s =>
      simp only [stepCall, play]
      rcases hget : mapGet st id with _ | v
      · simpa using countKey_mapSet_le st id _ h j
      · rcases hv : v.fadeOutTimer with _ | _ <;>
          simpa [hv] using countKey_mapSet_le st id _ h j
  | stop id =>
      simp only [stepCall, stop]
      rcases hget : mapGet st id with _ | v
      · exact h j
      · rcases hv : v.fadeOutTimer with _ | _
        · simpa [hv] using countKey_mapSet_le st id _ h j
        · simpa [hv] using h j
  | stopAll =>
      exact h j
  | updateSettings id s =>
      simp only [stepCall, updateSettings]
      rcases hget : mapGet st id with _ | v
      · exact h j
      · rcases hv : v.fadeOutTimer with _ | _ <;>
          simpa [hv] using countKey_mapSet_le st id _ h j

/-- Running any sequence of Mix Engine calls preserves the
at-most-one-binding-per-id bound. -/
lemma countKey_runCalls_le (calls : List MixCall) :
    ∀ st : VoiceMap, (∀ j, countKey st j ≤ 1) →
      ∀ j, countKey (runCalls st calls) j ≤ 1 := by
  induction calls with
  | nil => intro st h j; exact h j
  | cons c cs ih =>
      intro st h j
      exact ih (stepCall st c) (countKey_stepCall_le st c h) j

/-! ## Concrete Mix Engine states for witnesses and counterexamples -/

def settingsEx : AudioSettings :=
  { volume := 1, pan := 0, loop := false, fadeIn := some 1, fadeOut := some 1 }

def voicePlaying : Voice :=
  { url := "clip.mp3", pan := 0, loop := false, fadeOutDuration := 1,
    fadeOutTimer := false }

def voiceFading : Voice :=
  { url := "clip.mp3", pan := 0, loop := false, fadeOutDuration := 5,
    fadeOutTimer := true }

def statePlaying : VoiceMap := [("a", voicePlaying)]

def stateFading : VoiceMap := [("a", voiceFading)]

def stateMixed : VoiceMap := [("a", voiceFading), ("b", voicePlaying)]

/-! ## Claim theorems: Mix Engine -/

/-- C1: (a) for every sequence of Mix Engine calls starting from the
empty engine, at most one voice exists for any id at any time; and
(b) `play` on an id whose voice is not fading (no pending teardown
timer) is a structural no-op: it emits no audio actions — so playback
is not restarted and no fade-in ramp is started — exactly one voice
remains for the id, and the stored voice is unchanged except for the
remembered fade-out duration that `play` always refreshes. -/
theorem mix_at_most_one_voice_per_id :
    (∀ (calls : List MixCall) (id : String),
        countKey (runCalls [] calls) id ≤ 1)
    ∧ (∀ (st : VoiceMap) (id url : String) (s : AudioSettings) (v : Voice),
        countKey st id ≤ 1 → mapGet st id = some v → v.fadeOutTimer = false →
          (play st id url s).2 = []
          ∧ countKey (play st id url s).1 id = 1
          ∧ mapGet (play st id url s).1 id
              = some { v with fadeOutDuration := s.fadeOut.getD (3/10) }) := by
  constructor
  · intro calls id
    exact countKey_runCalls_le calls [] (fun j => by simp [countKey]) id
  · intro st id url s v hcount hget htimer
    have hany := any_of_mapGet st id v hget
    refine ⟨?_, ?_, ?_⟩
    · simp [play, hget, htimer]
    · have h1 := countKey_pos_of_mapGet st id v hget
      simp only [play, hget, htimer, Bool.false_eq_true, if_false]
      rw [countKey_mapSet_present st id _ id hany]
      omega
    · simp only [play, hget, htimer, Bool.false_eq_true, if_false]
      exact mapGet_mapSet_self st id _

/-- C1 witness: a second `play` for id `"a"` while its voice is
playing emits nothing and leaves exactly one voice for `"a"`. -/
theorem mix_at_most_one_voice_per_id_witness :
    (play statePlaying "a" "clip.mp3" settingsEx).2 = []
    ∧ countKey (play statePlaying "a" "clip.mp3" settingsEx).1 "a" = 1 := by
  have h := mix_at_most_one_voice_per_id.2 statePlaying "a" "clip.mp3" settingsEx
    voicePlaying (by decide) (by decide) (by decide)
  exact ⟨h.1, h.2.1⟩

/-- C2: `play` on an id whose voice is `FadingOut` with a pending
teardown timer cancels the timer, cancels the in-flight loudness ramp,
and ramps the same voice back up to `settings.volume` over
`settings.fadeIn` seconds (0.3 when absent); the voice is revived in
place — its stored record keeps everything but the refreshed fade-out
duration and the cleared timer — and exactly one voice remains. -/
theorem mix_play_revives_fading_voice :
    ∀ (st : VoiceMap) (id url : String) (s : AudioSettings) (v : Voice),
      countKey st id ≤ 1 → mapGet st id = some v → v.fadeOutTimer = true →
        (play st id url s).2
            = [AudioAction.cancelTeardown id, AudioAction.cancelRamps id,
               AudioAction.rampGain id s.volume (s.fadeIn.getD (3/10))]
        ∧ mapGet (play st id url s).1 id
            = some { v with
                     fadeOutDuration := s.fadeOut.getD (3/10),
                     fadeOutTimer := false }
        ∧ countKey (play st id url s).1 id = 1 := by
  intro st id url s v hcount hget htimer
  have hany := any_of_mapGet st id v hget
  refine ⟨?_, ?_, ?_⟩
  · simp [play, hget, htimer]
  · simp only [play, hget, htimer, if_true]
    exact mapGet_mapSet_self st id _
  · have h1 := countKey_pos_of_mapGet st id v hget
    simp only [play, hget, htimer, if_true]
    rw [countKey_mapSet_present st id _ id hany]
    omega

/-- C2 witness: reviving the fading voice `"a"` emits exactly the
cancel-timer, cancel-ramp, ramp-up sequence and keeps one voice. -/
theorem mix_play_revives_fading_voice_witness :
    (play stateFading "a" "clip.mp3" settingsEx).2
        = [AudioAction.cancelTeardown "a", AudioAction.cancelRamps "a",
           AudioAction.rampGain "a" settingsEx.volume (settingsEx.fadeIn.getD (3/10))]
    ∧ countKey (play stateFading "a" "clip.mp3" settingsEx).1 "a" = 1 := by
  have h := mix_play_revives_fading_voice stateFading "a" "clip.mp3" settingsEx
    voiceFading (by decide) (by decide) (by decide)
  exact ⟨h.1, h.2.2⟩

/-- C3 counterexample: a live voice that is already fading out (here
with its own configured 5-second fade) is not touched by `stopAll` —
no 0.1-second ramp to zero and no teardown are issued for it at all,
refuting "applies to every live voice regardless of its current
state". -/
theorem mix_stopAll_skips_fading_counterexample :
    mapGet stateFading "a" = some voiceFading
    ∧ (stopAll stateFading).2 = []
    ∧ (stopAll stateFading).1 = stateFading := by
  refine ⟨by decide, by decide, rfl⟩

/-- C3 amended: `stopAll` leaves the voice map unchanged synchronously
and, for every voice that is **not** already fading out, ramps its
loudness to zero over the fixed 0.1 s and schedules its teardown
150 ms later; a voice already fading out (pending teardown timer) is
skipped entirely — no action of `stopAll` targets its id — and it
completes its own previously scheduled fade instead. -/
theorem mix_stopAll_fades_only_non_fading (st : VoiceMap) :
    (stopAll st).1 = st
    ∧ (∀ id v, mapGet st id = some v → v.fadeOutTimer = false →
        AudioAction.rampGain id 0 (1/10) ∈ (stopAll st).2
        ∧ AudioAction.scheduleTeardown id 150 ∈ (stopAll st).2)
    ∧ (∀ id v, mapGet st id = some v → v.fadeOutTimer = true →
        ∀ a ∈ (stopAll st).2, actionVoiceId a ≠ id) := by
  refine ⟨rfl, ?_, ?_⟩
  · intro id v hget htimer
    obtain ⟨e, he, hek⟩ := exists_mem_of_mapGet st id v hget
    constructor <;>
      · refine List.mem_flatMap.mpr ⟨e, he, ?_⟩
        rw [hek, hget]
        simp [htimer]
  · intro id v hget htimer a ha
    obtain ⟨e, he, hae⟩ := List.mem_flatMap.mp ha
    by_cases hek : e.1 = id
    · rw [hek, hget] at hae
      simp [htimer] at hae
    · rcases hget2 : mapGet st e.1 with _ | node
      · rw [hget2] at hae
        simp at hae
      · rw [hget2] at hae
        rcases hft : node.fadeOutTimer with _ | _
        · simp [hft] at hae
          rcases hae with rfl | rfl | rfl | rfl <;> simpa [actionVoiceId] using hek
        · simp [hft] at hae

/-- C3 amended witness: on a state with a fading voice `"a"` and a
playing voice `"b"`, `stopAll` issues the short ramp and teardown for
`"b"` and nothing at all for `"a"`. -/
theorem mix_stopAll_fades_only_non_fading_witness :
    (AudioAction.rampGain "b" 0 (1/10) ∈ (stopAll stateMixed).2
      ∧ AudioAction.scheduleTeardown "b" 150 ∈ (stopAll stateMixed).2)
    ∧ (∀ a ∈ (stopAll stateMixed).2, actionVoiceId a ≠ "a") := by
  have h := mix_stopAll_fades_only_non_fading stateMixed
  exact ⟨h.2.1 "b" voicePlaying (by decide) (by decide),
         h.2.2 "a" voiceFading (by decide) (by decide)⟩

/-- C4 counterexample: `updateSettings` on the voice `"a"` that is
fading out (stored fade-out duration 5) is not a no-op on the stored
voice: the remembered fade-out duration is overwritten with the new
settings' value 1. -/
theorem mix_updateSettings_fading_mutates_counterexample :
    mapGet (updateSettings stateFading "a" settingsEx).1 "a"
        = some { voiceFading with fadeOutDuration := 1 }
    ∧ mapGet (updateSettings stateFading "a" settingsEx).1 "a"
        ≠ mapGet stateFading "a" := by
  refine ⟨by decide, by decide⟩

/-- C4 amended: while a voice is fading out, `updateSettings` issues no
audio action (the fade-out ramp completes undisturbed) and leaves every
stored field unchanged **except** the remembered fade-out duration,
which it always refreshes from the new settings; `updateSettings` and
`stop` on a nonexistent id, and `stop` on an already-fading voice, are
complete no-ops rather than errors. -/
theorem mix_updateSettings_stop_noop_cases :
    (∀ (st : VoiceMap) (id : String) (s : AudioSettings) (v : Voice),
        mapGet st id = some v → v.fadeOutTimer = true →
          (updateSettings st id s).2 = []
          ∧ mapGet (updateSettings st id s).1 id
              = some { v with fadeOutDuration := s.fadeOut.getD (3/10) })
    ∧ (∀ (st : VoiceMap) (id : String) (s : AudioSettings),
        mapGet st id = none → updateSettings st id s = (st, []))
    ∧ (∀ (st : VoiceMap) (id : String),
        mapGet st id = none → stop st id = (st, []))
    ∧ (∀ (st : VoiceMap) (id : String) (v : Voice),
        mapGet st id = some v → v.fadeOutTimer = true → stop st id = (st, [])) := by
  refine ⟨?_, ?_, ?_, ?_⟩
  · intro st id s v hget htimer
    refine ⟨by simp [updateSettings, hget, htimer], ?_⟩
    simp only [updateSettings, hget, htimer, if_true]
    exact mapGet_mapSet_self st id _
  · intro st id s hget
    simp [updateSettings, hget]
  · intro st id hget
    simp [stop, hget]
  · intro st id v hget htimer
    simp [stop, hget, htimer]

/-- C4 amended witness: the no-op branches evaluated on concrete
states: `updateSettings` on the fading voice `"a"` emits nothing,
`updateSettings` and `stop` on the absent id `"z"` return the state
untouched, and `stop` on the fading voice `"a"` is a no-op. -/
theorem mix_updateSettings_stop_noop_cases_witness :
    (updateSettings stateFading "a" settingsEx).2 = []
    ∧ updateSettings stateFading "z" settingsEx = (stateFading, [])
    ∧ stop stateFading "z" = (stateFading, [])
    ∧ stop stateFading "a" = (stateFading, []) := by
  refine ⟨(mix_updateSettings_stop_noop_cases.1 stateFading "a" settingsEx voiceFading
      (by decide) (by decide)).1,
    mix_updateSettings_stop_noop_cases.2.1 stateFading "z" settingsEx (by decide),
    mix_updateSettings_stop_noop_cases.2.2.1 stateFading "z" (by decide),
    mix_updateSettings_stop_noop_cases.2.2.2 stateFading "a" voiceFading
      (by decide) (by decide)⟩

/-! ## Concrete controller inputs for witnesses and counterexamples -/

def twoPointCandidate : List Point := [⟨1, 1⟩, ⟨2, 2⟩]

def bigSquare : List Point := [⟨0, 0⟩, ⟨10, 0⟩, ⟨10, 10⟩, ⟨0, 10⟩]

/-- A 3-point candidate lying fully inside `bigSquare`. -/
def triangleInside : List Point := [⟨1, 1⟩, ⟨2, 1⟩, ⟨2, 2⟩]

/-- A 6-point candidate lying fully inside `bigSquare`. -/
def hexInside : List Point := [⟨1, 1⟩, ⟨2, 1⟩, ⟨3, 1⟩, ⟨3, 3⟩, ⟨2, 3⟩, ⟨1, 3⟩]

def squareHotspot : Hotspot :=
  { id := "hs1", points := bigSquare, audioUrl := none, audioPath := none,
    name := "Zone 1", color := "#4f46e5",
    settings := { volume := 1, pan := 0, loop := false, fadeIn := some (1/2),
                  fadeOut := some (1/2) } }

def touchedHotspot : Hotspot :=
  { id := "h2", points := bigSquare, audioUrl := some "b.mp3", audioPath := none,
    name := "Zone 2", color := "#0ea5e9", settings := settingsEx }

/-! ## Claim theorems: Hotspot Controller -/

/-- C7 counterexample: a draw session committing a 2-point candidate
creates no hotspot, but it is discarded silently — no error signal at
all, in particular no DegeneratePolygon error, is surfaced.  The
handler has no degenerate-polygon rejection; it simply commits nothing
unless the candidate has more than five points. -/
theorem draw_two_point_candidate_counterexample :
    (handleStopDrawing true twoPointCandidate [] "id1" "#fff").hotspots = []
    ∧ (handleStopDrawing true twoPointCandidate [] "id1" "#fff").error = none
    ∧ (handleStopDrawing true twoPointCandidate [] "id1" "#fff").error
        ≠ some DrawError.degeneratePolygon := by
  refine ⟨rfl, rfl, ?_⟩
  show (none : Option DrawError) ≠ some DrawError.degeneratePolygon
  simp

/-- C7 amended: a candidate with five or fewer points — a 2-point one
in particular — is silently discarded when the draw gesture ends: no
hotspot is created, no geometry test is consulted, drawing state is
reset, and no error signal (no DegeneratePolygon error exists in the
code) is produced. -/
theorem draw_short_candidate_silently_discarded :
    ∀ (pts : List Point) (hotspots : List Hotspot) (newId newColor : String),
      pts.length ≤ 5 →
        handleStopDrawing true pts hotspots newId newColor
          = { hotspots := hotspots, error := none, isDrawing := false,
              currentPoints := [] } := by
  intro pts hs nid nc hlen
  unfold handleStopDrawing
  rw [if_neg (by simp), if_neg (by omega)]

/-- C7 amended witness: the 2-point candidate evaluated concretely. -/
theorem draw_short_candidate_silently_discarded_witness :
    handleStopDrawing true twoPointCandidate [] "id1" "#fff"
      = { hotspots := [], error := none, isDrawing := false,
          currentPoints := [] } :=
  draw_short_candidate_silently_discarded twoPointCandidate [] "id1" "#fff"
    (by decide)

/-- C8 counterexample: a 3-point candidate lying fully inside the
committed hotspot overlaps it (per `polygonsOverlap`), yet ending the
gesture surfaces no overlap-conflict signal — the candidate is
discarded silently because the overlap check only runs for candidates
with more than five points.  (No hotspot is created and the existing
one is untouched, so those parts of the claim do hold here.) -/
theorem draw_overlap_small_candidate_counterexample :
    polygonsOverlap triangleInside squareHotspot.points = true
    ∧ (handleStopDrawing true triangleInside [squareHotspot] "id2" "#fff").error
        = none
    ∧ (handleStopDrawing true triangleInside [squareHotspot] "id2" "#fff").hotspots
        = [squareHotspot] := by
  refine ⟨?_, rfl, rfl⟩
  norm_num [polygonsOverlap, anyEdgesIntersect, isPointInPolygon, edgesOf, ccw,
    doSegmentsIntersect, triangleInside, squareHotspot, bigSquare, List.range_succ]

/-- C8 amended: when a draw gesture ends with a candidate of more than
five points that overlaps some committed hotspot's polygon (per
`polygonsOverlap`), the commit is rejected with the overlap-conflict
signal, the candidate is discarded, no hotspot is created, and the
committed hotspot list is returned unmodified; an overlapping candidate
with five or fewer points is instead discarded silently, without the
signal. -/
theorem draw_overlap_rejected_with_signal :
    ∀ (pts : List Point) (hotspots : List Hotspot) (newId newColor : String),
      5 < pts.length →
      hotspots.any (fun h => polygonsOverlap pts h.points) = true →
        handleStopDrawing true pts hotspots newId newColor
          = { hotspots := hotspots, error := some DrawError.overlapConflict,
              isDrawing := false, currentPoints := [] } := by
  intro pts hs nid nc hlen hov
  unfold handleStopDrawing
  rw [if_neg (by simp), if_pos hlen, if_pos hov]

/-- C8 amended witness: a 6-point candidate inside the committed
hotspot is rejected with the conflict signal and the hotspot list is
unchanged. -/
theorem draw_overlap_rejected_with_signal_witness :
    handleStopDrawing true hexInside [squareHotspot] "id3" "#fff"
      = { hotspots := [squareHotspot], error := some DrawError.overlapConflict,
          isDrawing := false, currentPoints := [] } :=
  draw_overlap_rejected_with_signal hexInside [squareHotspot] "id3" "#fff"
    (by decide)
    (by norm_num [polygonsOverlap, anyEdgesIntersect, isPointInPolygon, edgesOf,
      ccw, doSegmentsIntersect, hexInside, squareHotspot, bigSquare,
      List.range_succ])

/-- C9: uploading a new background image replaces the project's image
fields (`imageUrl`, `imagePath`) and resets the hotspot list to empty —
every previously drawn hotspot is deleted — while the global channels
and all other project fields are kept unchanged. -/
theorem image_upload_resets_hotspots :
    ∀ (prev : Project) (url path : String),
      (handleImageUpload prev url path).hotspots = []
      ∧ (handleImageUpload prev url path).imageUrl = some url
      ∧ (handleImageUpload prev url path).imagePath = some path
      ∧ (handleImageUpload prev url path).globalChannels = prev.globalChannels
      ∧ (handleImageUpload prev url path).id = prev.id
      ∧ (handleImageUpload prev url path).title = prev.title
      ∧ (handleImageUpload prev url path).introAudioUrl = prev.introAudioUrl
      ∧ (handleImageUpload prev url path).introAudioPath = prev.introAudioPath
      ∧ (handleImageUpload prev url path).introAudioLoop = prev.introAudioLoop
      ∧ (handleImageUpload prev url path).createdAt = prev.createdAt := by
  intro prev url path
  exact ⟨rfl, rfl, rfl, rfl, rfl, rfl, rfl, rfl, rfl, rfl⟩

/-- C10: in touch-driven playback, (a) when the touch moves onto a
polygon whose id differs from the sounding hotspot id and that hotspot
has a clip, the controller issues `stop` for the old id first and then
`play` for the new id, and remembers the new id as sounding; (b) when
the touch resolves to no polygon while a voice is sounding, that voice
is stopped and the sounding id is cleared. -/
theorem touch_move_stops_old_then_plays_new :
    (∀ (old newId url : String) (hs : List Hotspot) (h : Hotspot),
        old ≠ newId →
        hs.find? (fun hh => hh.id == newId) = some h →
        h.audioUrl = some url →
          handleTouchMove (some newId) (some old) hs
            = (some newId,
               [MixCall.stop old, MixCall.play newId url h.settings]))
    ∧ (∀ (p : String) (hs : List Hotspot),
        handleTouchMove none (some p) hs = (none, [MixCall.stop p])) := by
  constructor
  · intro old newId url hs h hne hfind hurl
    have hid : h.id = newId := eq_of_beq (by simpa using List.find?_some hfind)
    have hbeq : (some newId == some old) = false := by
      simp [Ne.symm hne]
    simp only [handleTouchMove, hbeq, Bool.false_eq_true, if_false, hfind]
    simp [playHotspot, hurl, hid, Ne.symm hne]
    exact hne
  · intro p hs
    rfl

/-- C10 witness: dragging from sounding hotspot `"h1"` onto hotspot
`"h2"` issues stop-then-play in that order, and dragging off all
polygons stops the sounding voice. -/
theorem touch_move_stops_old_then_plays_new_witness :
    handleTouchMove (some "h2") (some "h1") [touchedHotspot]
        = (some "h2",
           [MixCall.stop "h1", MixCall.play "h2" "b.mp3" touchedHotspot.settings])
    ∧ handleTouchMove none (some "h1") [touchedHotspot]
        = (none, [MixCall.stop "h1"]) :=
  ⟨touch_move_stops_old_then_plays_new.1 "h1" "h2" "b.mp3" [touchedHotspot]
      touchedHotspot (by decide) (by decide) (by decide),
   touch_move_stops_old_then_plays_new.2 "h1" [touchedHotspot]⟩

end SoundMap
